import Mathlib

set_option maxRecDepth 8000

/-!
Shallow embedding of the GUID parser in `uguid/src/guid_parse.rs`.

An input string is modelled as its UTF-8 byte sequence, a `List Nat`
(the Rust code immediately calls `s.as_bytes()` and works bytewise).
Fallible Rust code returns `Except GuidFromStrError`; a possible panic
from slice indexing is modelled by an outer `Option` layer, `none`
standing for a panic.  Machine bytes are `Nat`; no arithmetic in the
source can overflow a `u8` (decoded nibbles are at most `0xf`).
-/

deriving instance DecidableEq for Except

/-- Embedding of the unit struct `GuidFromStrError`, the single
parse-failure value. -/
inductive GuidFromStrError : Type
  | mk : GuidFromStrError
  deriving DecidableEq

/-- Embedding of the `Guid` record as used by `try_parse_guid`:
`time_low: [u8; 4]`, `time_mid: [u8; 2]`, `time_high_and_version: [u8; 2]`,
`clock_seq_high_and_reserved: u8`, `clock_seq_low: u8`, `node: [u8; 6]`.
Fixed-size byte arrays become `List Nat` of the corresponding length. -/
structure Guid : Type where
  time_low : List Nat
  time_mid : List Nat
  time_high_and_version : List Nat
  clock_seq_high_and_reserved : Nat
  clock_seq_low : Nat
  node : List Nat
  deriving DecidableEq

/-- Embedding of `parse_byte_from_ascii_char`: the 16-branch `match`
mapping an ASCII hex digit byte to its value, every other byte to the
error.  Byte literals are spelled as their ASCII codes
(`0x30`–`0x39` = `0`–`9`, `0x61`–`0x66` = `a`–`f`, `0x41`–`0x46` = `A`–`F`). -/
def parse_byte_from_ascii_char (c : Nat) : Except GuidFromStrError Nat :=
  if c = 0x30 then .ok 0x0
  else if c = 0x31 then .ok 0x1
  else if c = 0x32 then .ok 0x2
  else if c = 0x33 then .ok 0x3
  else if c = 0x34 then .ok 0x4
  else if c = 0x35 then .ok 0x5
  else if c = 0x36 then .ok 0x6
  else if c = 0x37 then .ok 0x7
  else if c = 0x38 then .ok 0x8
  else if c = 0x39 then .ok 0x9
  else if c = 0x61 ∨ c = 0x41 then .ok 0xa
  else if c = 0x62 ∨ c = 0x42 then .ok 0xb
  else if c = 0x63 ∨ c = 0x43 then .ok 0xc
  else if c = 0x64 ∨ c = 0x44 then .ok 0xd
  else if c = 0x65 ∨ c = 0x45 then .ok 0xe
  else if c = 0x66 ∨ c = 0x46 then .ok 0xf
  else .error ⟨⟩

/-- Embedding of `parse_byte_from_ascii_char_pair`.  The two `mtry!`
uses become explicit matches, exactly as the macro expands. -/
def parse_byte_from_ascii_char_pair (a b : Nat) : Except GuidFromStrError Nat :=
  match parse_byte_from_ascii_char a with
  | .error e => .error e
  | .ok a =>
    match parse_byte_from_ascii_char b with
    | .error e => .error e
    | .ok b => .ok (a <<< 4 ||| b)

/-- Embedding of `parse_byte_from_ascii_str_at`.  The two slice
indexings `s[start]` and `s[start + 1]` can panic in Rust when out of
bounds; `none` models that panic. -/
def parse_byte_from_ascii_str_at (s : List Nat) (start : Nat) :
    Option (Except GuidFromStrError Nat) :=
  match s[start]?, s[start + 1]? with
  | some a, some b => some (parse_byte_from_ascii_char_pair a b)
  | _, _ => none

/-- Error-propagating bind over the panic layer: the expansion of
`mtry!` around a `parse_byte_from_ascii_str_at` call inside
`try_parse_guid` (an `Err` returns early, a panic aborts everything). -/
def pbind {α β : Type} (x : Option (Except GuidFromStrError α))
    (f : α → Option (Except GuidFromStrError β)) :
    Option (Except GuidFromStrError β) :=
  match x with
  | none => none
  | some (.error e) => some (.error e)
  | some (.ok v) => f v

/-- Panic-propagating bind: the evaluation of a slice indexing such as
`s[8]` inside `try_parse_guid` (out of bounds aborts everything). -/
def obind {β : Type} (x : Option Nat)
    (f : Nat → Option (Except GuidFromStrError β)) :
    Option (Except GuidFromStrError β) :=
  match x with
  | none => none
  | some v => f v

/-- Embedding of `try_parse_guid`: length check, separator check at
indices 8, 13, 18, 23 (`0x2d` = `-`), then the twelve pair decodes in
the source's field order.  The separator accesses `s[8]`, `s[13]`,
`s[18]`, `s[23]` are indexings that could panic, hence the `obind`
on their `Option` results. -/
def try_parse_guid (s : List Nat) : Option (Except GuidFromStrError Guid) :=
  if s.length ≠ 36 then
    some (.error ⟨⟩)
  else
    obind s[8]? fun c8 =>
    obind s[13]? fun c13 =>
    obind s[18]? fun c18 =>
    obind s[23]? fun c23 =>
      if c8 ≠ 0x2d ∨ c13 ≠ 0x2d ∨ c18 ≠ 0x2d ∨ c23 ≠ 0x2d then
        some (.error ⟨⟩)
      else
        pbind (parse_byte_from_ascii_str_at s 6) fun tl0 =>
        pbind (parse_byte_from_ascii_str_at s 4) fun tl1 =>
        pbind (parse_byte_from_ascii_str_at s 2) fun tl2 =>
        pbind (parse_byte_from_ascii_str_at s 0) fun tl3 =>
        pbind (parse_byte_from_ascii_str_at s 11) fun tm0 =>
        pbind (parse_byte_from_ascii_str_at s 9) fun tm1 =>
        pbind (parse_byte_from_ascii_str_at s 16) fun th0 =>
        pbind (parse_byte_from_ascii_str_at s 14) fun th1 =>
        pbind (parse_byte_from_ascii_str_at s 19) fun csh =>
        pbind (parse_byte_from_ascii_str_at s 21) fun csl =>
        pbind (parse_byte_from_ascii_str_at s 24) fun n0 =>
        pbind (parse_byte_from_ascii_str_at s 26) fun n1 =>
        pbind (parse_byte_from_ascii_str_at s 28) fun n2 =>
        pbind (parse_byte_from_ascii_str_at s 30) fun n3 =>
        pbind (parse_byte_from_ascii_str_at s 32) fun n4 =>
        pbind (parse_byte_from_ascii_str_at s 34) fun n5 =>
        some (.ok
          { time_low := [tl0, tl1, tl2, tl3]
            time_mid := [tm0, tm1]
            time_high_and_version := [th0, th1]
            clock_seq_high_and_reserved := csh
            clock_seq_low := csl
            node := [n0, n1, n2, n3, n4, n5] })

/-! Specification-side vocabulary used to state the claims. -/

/-- A byte is an ASCII hex digit: `0`–`9`, `a`–`f`, `A`–`F`. -/
def isAsciiHexDigit (c : Nat) : Bool :=
  (0x30 ≤ c && c ≤ 0x39) || (0x61 ≤ c && c ≤ 0x66) || (0x41 ≤ c && c ≤ 0x46)

/-- Numeric value of an ASCII hex digit (0 on non-digits). -/
def hexVal (c : Nat) : Nat :=
  if 0x30 ≤ c && c ≤ 0x39 then c - 0x30
  else if 0x61 ≤ c && c ≤ 0x66 then c - 0x57
  else if 0x41 ≤ c && c ≤ 0x46 then c - 0x37
  else 0

/-- The decoded hex pair at textual offset `k`: sixteen times the value
of the digit at `k` plus the value of the digit at `k + 1`. -/
def pairVal (s : List Nat) (k : Nat) : Nat :=
  16 * hexVal (s.getD k 0) + hexVal (s.getD (k + 1) 0)

/-- Separator bytes `-` present at textual indices 8, 13, 18, 23. -/
def sepOk (s : List Nat) : Bool :=
  (s.getD 8 0 = 0x2d) && (s.getD 13 0 = 0x2d) &&
    (s.getD 18 0 = 0x2d) && (s.getD 23 0 = 0x2d)

/-- The sixteen textual pair offsets of the layout table in §4.2. -/
def hexOffsets : List Nat :=
  [0, 2, 4, 6, 9, 11, 14, 16, 19, 21, 24, 26, 28, 30, 32, 34]

/-- Every non-separator position holds an ASCII hex digit, phrased
over the sixteen decoded pairs. -/
def hexOk (s : List Nat) : Bool :=
  hexOffsets.all fun k =>
    isAsciiHexDigit (s.getD k 0) && isAsciiHexDigit (s.getD (k + 1) 0)

/-- The GUID determined by a well-shaped input, per the destination
table of §4.2. -/
def guidOf (s : List Nat) : Guid where
  time_low := [pairVal s 6, pairVal s 4, pairVal s 2, pairVal s 0]
  time_mid := [pairVal s 11, pairVal s 9]
  time_high_and_version := [pairVal s 16, pairVal s 14]
  clock_seq_high_and_reserved := pairVal s 19
  clock_seq_low := pairVal s 21
  node := [pairVal s 24, pairVal s 26, pairVal s 28, pairVal s 30,
    pairVal s 32, pairVal s 34]

/-- ASCII-uppercase of one byte, as `u8::to_ascii_uppercase`. -/
def asciiUpper (c : Nat) : Nat :=
  if 0x61 ≤ c ∧ c ≤ 0x7a then c - 0x20 else c

/-- ASCII-lowercase of one byte, as `u8::to_ascii_lowercase`. -/
def asciiLower (c : Nat) : Nat :=
  if 0x41 ≤ c ∧ c ≤ 0x5a then c + 0x20 else c

/-- Modelled from the spec: lowercase hex digit character for a nibble
(`0`–`9` then `a`–`f`), used by the canonical re-emitter of §8 property 1,
whose source (the repository's Display/format code) is not under the
provided sources. -/
def hexDigitChar (n : Nat) : Nat :=
  if n < 10 then 0x30 + n else 0x57 + n

/-- Modelled from the spec: the two lowercase hex characters of one byte,
upper nibble first (§4.1 read backwards). -/
def byteHexPair (b : Nat) : List Nat :=
  [hexDigitChar (b / 16), hexDigitChar (b % 16)]

/-- Modelled from the spec: re-emitting a GUID in canonical form
(lowercase, hyphenated 8-4-4-4-12), applying the inverse of the §4.2
field/offset mapping.  The repository's formatter itself is not among
the provided sources; this follows §3 and §4.2 of the spec. -/
def emit_guid (g : Guid) : List Nat :=
  byteHexPair (g.time_low.getD 3 0) ++ byteHexPair (g.time_low.getD 2 0) ++
  byteHexPair (g.time_low.getD 1 0) ++ byteHexPair (g.time_low.getD 0 0) ++
  [0x2d] ++
  byteHexPair (g.time_mid.getD 1 0) ++ byteHexPair (g.time_mid.getD 0 0) ++
  [0x2d] ++
  byteHexPair (g.time_high_and_version.getD 1 0) ++
  byteHexPair (g.time_high_and_version.getD 0 0) ++
  [0x2d] ++
  byteHexPair g.clock_seq_high_and_reserved ++ byteHexPair g.clock_seq_low ++
  [0x2d] ++
  byteHexPair (g.node.getD 0 0) ++ byteHexPair (g.node.getD 1 0) ++
  byteHexPair (g.node.getD 2 0) ++ byteHexPair (g.node.getD 3 0) ++
  byteHexPair (g.node.getD 4 0) ++ byteHexPair (g.node.getD 5 0)

/-- A well-formed GUID value: field widths as in the Rust type
(`[u8; 4]`, `[u8; 2]`, `[u8; 2]`, `u8`, `u8`, `[u8; 6]`) and every
byte in `u8` range. -/
def guidWF (g : Guid) : Bool :=
  (g.time_low.length = 4) && (g.time_mid.length = 2) &&
    (g.time_high_and_version.length = 2) && (g.node.length = 6) &&
    (g.time_low ++ g.time_mid ++ g.time_high_and_version ++
      [g.clock_seq_high_and_reserved, g.clock_seq_low] ++ g.node).all
      (fun b => b < 256)

/-- A sample valid input, the bytes of
`01234567-89ab-cdef-0123-456789abcdef` (scenario 1 of §8). -/
def sampleInput : List Nat :=
  [0x30, 0x31, 0x32, 0x33, 0x34, 0x35, 0x36, 0x37, 0x2d,
   0x38, 0x39, 0x61, 0x62, 0x2d,
   0x63, 0x64, 0x65, 0x66, 0x2d,
   0x30, 0x31, 0x32, 0x33, 0x2d,
   0x34, 0x35, 0x36, 0x37, 0x38, 0x39, 0x61, 0x62, 0x63, 0x64, 0x65, 0x66]

/-- The bytes of `01234567_89ab-cdef-0123-456789abcdef`: underscore
(`0x5f`) in place of the hyphen at index 8 (scenario 6 of §8). -/
def sampleNoSep : List Nat :=
  [0x30, 0x31, 0x32, 0x33, 0x34, 0x35, 0x36, 0x37, 0x5f,
   0x38, 0x39, 0x61, 0x62, 0x2d,
   0x63, 0x64, 0x65, 0x66, 0x2d,
   0x30, 0x31, 0x32, 0x33, 0x2d,
   0x34, 0x35, 0x36, 0x37, 0x38, 0x39, 0x61, 0x62, 0x63, 0x64, 0x65, 0x66]

/-- The bytes of `g1234567-89ab-cdef-0123-456789abcdef`: non-hex `g`
(`0x67`) at index 0 (scenario 7 of §8). -/
def sampleNonHex : List Nat :=
  [0x67, 0x31, 0x32, 0x33, 0x34, 0x35, 0x36, 0x37, 0x2d,
   0x38, 0x39, 0x61, 0x62, 0x2d,
   0x63, 0x64, 0x65, 0x66, 0x2d,
   0x30, 0x31, 0x32, 0x33, 0x2d,
   0x34, 0x35, 0x36, 0x37, 0x38, 0x39, 0x61, 0x62, 0x63, 0x64, 0x65, 0x66]

/-- The bytes of `01234567-89AB-CDEF-0123-456789ABCDEF` (scenario 2
of §8). -/
def sampleUpper : List Nat :=
  [0x30, 0x31, 0x32, 0x33, 0x34, 0x35, 0x36, 0x37, 0x2d,
   0x38, 0x39, 0x41, 0x42, 0x2d,
   0x43, 0x44, 0x45, 0x46, 0x2d,
   0x30, 0x31, 0x32, 0x33, 0x2d,
   0x34, 0x35, 0x36, 0x37, 0x38, 0x39, 0x41, 0x42, 0x43, 0x44, 0x45, 0x46]

example : try_parse_guid sampleInput =
    some (.ok
      { time_low := [0x67, 0x45, 0x23, 0x01]
        time_mid := [0xab, 0x89]
        time_high_and_version := [0xef, 0xcd]
        clock_seq_high_and_reserved := 0x01
        clock_seq_low := 0x23
        node := [0x45, 0x67, 0x89, 0xab, 0xcd, 0xef] }) := by decide

example : try_parse_guid [] = some (.error ⟨⟩) := by decide

example : parse_byte_from_ascii_char_pair 0x31 0x61 = .ok 0x1a := by decide

/-! Core lemmas relating the embedded code to the spec vocabulary. -/

set_option maxHeartbeats 1600000 in
theorem parse_char_eq (c : Nat) :
    parse_byte_from_ascii_char c =
      if isAsciiHexDigit c then .ok (hexVal c) else .error ⟨⟩ := by
  by_cases h : c < 0x67
  · have key : ∀ i : Fin 0x67,
        parse_byte_from_ascii_char i.val =
          if isAsciiHexDigit i.val then .ok (hexVal i.val) else .error ⟨⟩ := by
      decide
    exact key ⟨c, h⟩
  · push_neg at h
    have h1 : isAsciiHexDigit c = false := by
      simp only [isAsciiHexDigit, Bool.or_eq_false_iff, Bool.and_eq_false_iff,
        decide_eq_false_iff_not, not_le]
      omega
    rw [h1]
    simp only [Bool.false_eq_true, if_false]
    unfold parse_byte_from_ascii_char
    rw [if_neg (by omega : ¬c = 0x30), if_neg (by omega : ¬c = 0x31),
      if_neg (by omega : ¬c = 0x32), if_neg (by omega : ¬c = 0x33),
      if_neg (by omega : ¬c = 0x34), if_neg (by omega : ¬c = 0x35),
      if_neg (by omega : ¬c = 0x36), if_neg (by omega : ¬c = 0x37),
      if_neg (by omega : ¬c = 0x38), if_neg (by omega : ¬c = 0x39),
      if_neg (by omega : ¬(c = 0x61 ∨ c = 0x41)),
      if_neg (by omega : ¬(c = 0x62 ∨ c = 0x42)),
      if_neg (by omega : ¬(c = 0x63 ∨ c = 0x43)),
      if_neg (by omega : ¬(c = 0x64 ∨ c = 0x44)),
      if_neg (by omega : ¬(c = 0x65 ∨ c = 0x45)),
      if_neg (by omega : ¬(c = 0x66 ∨ c = 0x46))]

theorem hexVal_le (c : Nat) : hexVal c ≤ 15 := by
  unfold hexVal
  split_ifs with h1 h2 h3
  · simp only [Bool.and_eq_true, decide_eq_true_eq] at h1
    omega
  · simp only [Bool.and_eq_true, decide_eq_true_eq] at h2
    omega
  · simp only [Bool.and_eq_true, decide_eq_true_eq] at h3
    omega
  · omega

theorem nibble_combine (x y : Nat) (hx : x ≤ 15) (hy : y ≤ 15) :
    x <<< 4 ||| y = 16 * x + y := by
  have key : ∀ a b : Fin 16, a.val <<< 4 ||| b.val = 16 * a.val + b.val := by
    decide
  exact key ⟨x, by omega⟩ ⟨y, by omega⟩

theorem pair_eq (a b : Nat) :
    parse_byte_from_ascii_char_pair a b =
      if isAsciiHexDigit a && isAsciiHexDigit b then
        .ok (16 * hexVal a + hexVal b)
      else .error ⟨⟩ := by
  unfold parse_byte_from_ascii_char_pair
  rw [parse_char_eq a, parse_char_eq b]
  by_cases ha : isAsciiHexDigit a <;> by_cases hb : isAsciiHexDigit b <;>
    simp [ha, hb, nibble_combine _ _ (hexVal_le a) (hexVal_le b)]

theorem getElem?_eq_some_getD {s : List Nat} {k : Nat} (h : k < s.length) :
    s[k]? = some (s.getD k 0) := by
  rw [List.getElem?_eq_getElem h, List.getD_eq_getElem s 0 h]

theorem str_at_eq (s : List Nat) (k : Nat) (h : k + 1 < s.length) :
    parse_byte_from_ascii_str_at s k =
      some (if isAsciiHexDigit (s.getD k 0) && isAsciiHexDigit (s.getD (k + 1) 0)
        then .ok (pairVal s k) else .error ⟨⟩) := by
  unfold parse_byte_from_ascii_str_at
  rw [getElem?_eq_some_getD (by omega), getElem?_eq_some_getD h]
  simp only [pair_eq, pairVal]

theorem pbind_some_if {β : Type} (c : Bool) (v : Nat)
    (f : Nat → Option (Except GuidFromStrError β)) :
    pbind (some (if c then .ok v else .error ⟨⟩)) f =
      if c then f v else some (.error ⟨⟩) := by
  cases c <;> rfl

theorem obind_some {β : Type} (v : Nat)
    (f : Nat → Option (Except GuidFromStrError β)) :
    obind (some v) f = f v := rfl

theorem hexOk_false_of (s : List Nat) (k : Nat) (hk : k ∈ hexOffsets)
    (h : (isAsciiHexDigit (s.getD k 0) && isAsciiHexDigit (s.getD (k + 1) 0))
      = false) :
    hexOk s = false := by
  rw [Bool.eq_false_iff]
  intro hh
  rw [hexOk, List.all_eq_true] at hh
  have hx := hh k hk
  rw [h] at hx
  exact Bool.false_ne_true hx

/-- Closed-form characterization of `try_parse_guid`: length check,
separator check, hex check, and on success the GUID of the §4.2 table. -/
theorem try_parse_guid_eq (s : List Nat) :
    try_parse_guid s =
      if s.length ≠ 36 then some (.error ⟨⟩)
      else if sepOk s then
        (if hexOk s then some (.ok (guidOf s)) else some (.error ⟨⟩))
      else some (.error ⟨⟩) := by
  by_cases hlen : s.length = 36
  case neg =>
    unfold try_parse_guid
    rw [if_pos hlen, if_pos hlen]
  case pos =>
    rw [if_neg (by omega)]
    unfold try_parse_guid
    rw [if_neg (by omega)]
    rw [getElem?_eq_some_getD (by omega : 8 < s.length),
      getElem?_eq_some_getD (by omega : 13 < s.length),
      getElem?_eq_some_getD (by omega : 18 < s.length),
      getElem?_eq_some_getD (by omega : 23 < s.length),
      obind_some, obind_some, obind_some, obind_some]
    by_cases hsep : sepOk s = true
    case neg =>
      rw [if_neg hsep]
      have hsep2 : sepOk s = false := Bool.eq_false_iff.mpr hsep
      simp only [sepOk, Bool.and_eq_false_iff, decide_eq_false_iff_not] at hsep2
      rw [if_pos (by tauto)]
    case pos =>
      rw [if_pos hsep]
      simp only [sepOk, Bool.and_eq_true, decide_eq_true_eq] at hsep
      obtain ⟨⟨⟨h8, h13⟩, h18⟩, h23⟩ := hsep
      rw [if_neg (by push_neg; exact ⟨h8, h13, h18, h23⟩)]
      have e6 := str_at_eq s 6 (by omega)
      have e4 := str_at_eq s 4 (by omega)
      have e2 := str_at_eq s 2 (by omega)
      have e0 := str_at_eq s 0 (by omega)
      have e11 := str_at_eq s 11 (by omega)
      have e9 := str_at_eq s 9 (by omega)
      have e16 := str_at_eq s 16 (by omega)
      have e14 := str_at_eq s 14 (by omega)
      have e19 := str_at_eq s 19 (by omega)
      have e21 := str_at_eq s 21 (by omega)
      have e24 := str_at_eq s 24 (by omega)
      have e26 := str_at_eq s 26 (by omega)
      have e28 := str_at_eq s 28 (by omega)
      have e30 := str_at_eq s 30 (by omega)
      have e32 := str_at_eq s 32 (by omega)
      have e34 := str_at_eq s 34 (by omega)
      simp only [e6, e4, e2, e0, e11, e9, e16, e14, e19, e21, e24, e26, e28,
        e30, e32, e34, pbind_some_if]
      clear e6 e4 e2 e0 e11 e9 e16 e14 e19 e21 e24 e26 e28 e30 e32 e34
      by_cases c6 : (isAsciiHexDigit (s.getD 6 0) && isAsciiHexDigit (s.getD 7 0)) = true
      case neg =>
        rw [if_neg c6, hexOk_false_of s 6 (by decide) (Bool.eq_false_iff.mpr c6)]
        rfl
      rw [if_pos c6]
      by_cases c4 : (isAsciiHexDigit (s.getD 4 0) && isAsciiHexDigit (s.getD 5 0)) = true
      case neg =>
        rw [if_neg c4, hexOk_false_of s 4 (by decide) (Bool.eq_false_iff.mpr c4)]
        rfl
      rw [if_pos c4]
      by_cases c2 : (isAsciiHexDigit (s.getD 2 0) && isAsciiHexDigit (s.getD 3 0)) = true
      case neg =>
        rw [if_neg c2, hexOk_false_of s 2 (by decide) (Bool.eq_false_iff.mpr c2)]
        rfl
      rw [if_pos c2]
      by_cases c0 : (isAsciiHexDigit (s.getD 0 0) && isAsciiHexDigit (s.getD 1 0)) = true
      case neg =>
        rw [if_neg c0, hexOk_false_of s 0 (by decide) (Bool.eq_false_iff.mpr c0)]
        rfl
      rw [if_pos c0]
      by_cases c11 : (isAsciiHexDigit (s.getD 11 0) && isAsciiHexDigit (s.getD 12 0)) = true
      case neg =>
        rw [if_neg c11, hexOk_false_of s 11 (by decide) (Bool.eq_false_iff.mpr c11)]
        rfl
      rw [if_pos c11]
      by_cases c9 : (isAsciiHexDigit (s.getD 9 0) && isAsciiHexDigit (s.getD 10 0)) = true
      case neg =>
        rw [if_neg c9, hexOk_false_of s 9 (by decide) (Bool.eq_false_iff.mpr c9)]
        rfl
      rw [if_pos c9]
      by_cases c16 : (isAsciiHexDigit (s.getD 16 0) && isAsciiHexDigit (s.getD 17 0)) = true
      case neg =>
        rw [if_neg c16, hexOk_false_of s 16 (by decide) (Bool.eq_false_iff.mpr c16)]
        rfl
      rw [if_pos c16]
      by_cases c14 : (isAsciiHexDigit (s.getD 14 0) && isAsciiHexDigit (s.getD 15 0)) = true
      case neg =>
        rw [if_neg c14, hexOk_false_of s 14 (by decide) (Bool.eq_false_iff.mpr c14)]
        rfl
      rw [if_pos c14]
      by_cases c19 : (isAsciiHexDigit (s.getD 19 0) && isAsciiHexDigit (s.getD 20 0)) = true
      case neg =>
        rw [if_neg c19, hexOk_false_of s 19 (by decide) (Bool.eq_false_iff.mpr c19)]
        rfl
      rw [if_pos c19]
      by_cases c21 : (isAsciiHexDigit (s.getD 21 0) && isAsciiHexDigit (s.getD 22 0)) = true
      case neg =>
        rw [if_neg c21, hexOk_false_of s 21 (by decide) (Bool.eq_false_iff.mpr c21)]
        rfl
      rw [if_pos c21]
      by_cases c24 : (isAsciiHexDigit (s.getD 24 0) && isAsciiHexDigit (s.getD 25 0)) = true
      case neg =>
        rw [if_neg c24, hexOk_false_of s 24 (by decide) (Bool.eq_false_iff.mpr c24)]
        rfl
      rw [if_pos c24]
      by_cases c26 : (isAsciiHexDigit (s.getD 26 0) && isAsciiHexDigit (s.getD 27 0)) = true
      case neg =>
        rw [if_neg c26, hexOk_false_of s 26 (by decide) (Bool.eq_false_iff.mpr c26)]
        rfl
      rw [if_pos c26]
      by_cases c28 : (isAsciiHexDigit (s.getD 28 0) && isAsciiHexDigit (s.getD 29 0)) = true
      case neg =>
        rw [if_neg c28, hexOk_false_of s 28 (by decide) (Bool.eq_false_iff.mpr c28)]
        rfl
      rw [if_pos c28]
      by_cases c30 : (isAsciiHexDigit (s.getD 30 0) && isAsciiHexDigit (s.getD 31 0)) = true
      case neg =>
        rw [if_neg c30, hexOk_false_of s 30 (by decide) (Bool.eq_false_iff.mpr c30)]
        rfl
      rw [if_pos c30]
      by_cases c32 : (isAsciiHexDigit (s.getD 32 0) && isAsciiHexDigit (s.getD 33 0)) = true
      case neg =>
        rw [if_neg c32, hexOk_false_of s 32 (by decide) (Bool.eq_false_iff.mpr c32)]
        rfl
      rw [if_pos c32]
      by_cases c34 : (isAsciiHexDigit (s.getD 34 0) && isAsciiHexDigit (s.getD 35 0)) = true
      case neg =>
        rw [if_neg c34, hexOk_false_of s 34 (by decide) (Bool.eq_false_iff.mpr c34)]
        rfl
      rw [if_pos c34]
      have hhex : hexOk s = true := by
        rw [hexOk, List.all_eq_true]
        intro k hk
        fin_cases hk <;> assumption
      rw [if_pos hhex]
      rfl

/-! Lemmas for case-insensitivity (C7). -/

theorem getD_map (s : List Nat) (f : Nat → Nat) (i : Nat) (h : i < s.length) :
    (s.map f).getD i 0 = f (s.getD i 0) := by
  rw [List.getD_eq_getElem (s.map f) 0 (by simpa using h),
    List.getD_eq_getElem s 0 h, List.getElem_map]

theorem asciiUpper_id (c : Nat) (h : 0x7b ≤ c) : asciiUpper c = c := by
  unfold asciiUpper
  rw [if_neg (by omega)]

theorem asciiLower_id (c : Nat) (h : 0x7b ≤ c) : asciiLower c = c := by
  unfold asciiLower
  rw [if_neg (by omega)]

theorem asciiUpper_sep (c : Nat) : (asciiUpper c = 0x2d) ↔ (c = 0x2d) := by
  unfold asciiUpper
  split_ifs with h
  · constructor <;> intro <;> omega
  · exact Iff.rfl

theorem asciiLower_sep (c : Nat) : (asciiLower c = 0x2d) ↔ (c = 0x2d) := by
  unfold asciiLower
  split_ifs with h
  · constructor <;> intro <;> omega
  · exact Iff.rfl

theorem isAsciiHexDigit_asciiUpper (c : Nat) :
    isAsciiHexDigit (asciiUpper c) = isAsciiHexDigit c := by
  by_cases h : c < 0x7b
  · have key : ∀ i : Fin 0x7b,
        isAsciiHexDigit (asciiUpper i.val) = isAsciiHexDigit i.val := by decide
    exact key ⟨c, h⟩
  · rw [asciiUpper_id c (by omega)]

theorem isAsciiHexDigit_asciiLower (c : Nat) :
    isAsciiHexDigit (asciiLower c) = isAsciiHexDigit c := by
  by_cases h : c < 0x7b
  · have key : ∀ i : Fin 0x7b,
        isAsciiHexDigit (asciiLower i.val) = isAsciiHexDigit i.val := by decide
    exact key ⟨c, h⟩
  · rw [asciiLower_id c (by omega)]

theorem hexVal_asciiUpper (c : Nat) : hexVal (asciiUpper c) = hexVal c := by
  by_cases h : c < 0x7b
  · have key : ∀ i : Fin 0x7b, hexVal (asciiUpper i.val) = hexVal i.val := by
      decide
    exact key ⟨c, h⟩
  · rw [asciiUpper_id c (by omega)]

theorem hexVal_asciiLower (c : Nat) : hexVal (asciiLower c) = hexVal c := by
  by_cases h : c < 0x7b
  · have key : ∀ i : Fin 0x7b, hexVal (asciiLower i.val) = hexVal i.val := by
      decide
    exact key ⟨c, h⟩
  · rw [asciiLower_id c (by omega)]

theorem sepOk_map (s : List Nat) (f : Nat → Nat) (hlen : s.length = 36)
    (hf : ∀ c, (f c = 0x2d) ↔ (c = 0x2d)) :
    sepOk (s.map f) = sepOk s := by
  unfold sepOk
  rw [getD_map s f 8 (by omega), getD_map s f 13 (by omega),
    getD_map s f 18 (by omega), getD_map s f 23 (by omega),
    decide_eq_decide.mpr (hf _), decide_eq_decide.mpr (hf _),
    decide_eq_decide.mpr (hf _), decide_eq_decide.mpr (hf _)]

theorem hexOk_map (s : List Nat) (f : Nat → Nat) (hlen : s.length = 36)
    (hf : ∀ c, isAsciiHexDigit (f c) = isAsciiHexDigit c) :
    hexOk (s.map f) = hexOk s := by
  have key : ∀ k, k + 1 < 36 →
      (isAsciiHexDigit ((s.map f).getD k 0) &&
        isAsciiHexDigit ((s.map f).getD (k + 1) 0)) =
      (isAsciiHexDigit (s.getD k 0) && isAsciiHexDigit (s.getD (k + 1) 0)) := by
    intro k hk
    rw [getD_map s f k (by omega), getD_map s f (k + 1) (by omega), hf, hf]
  simp only [hexOk, hexOffsets, List.all_cons, List.all_nil]
  rw [key 0 (by omega), key 2 (by omega), key 4 (by omega), key 6 (by omega),
    key 9 (by omega), key 11 (by omega), key 14 (by omega), key 16 (by omega),
    key 19 (by omega), key 21 (by omega), key 24 (by omega), key 26 (by omega),
    key 28 (by omega), key 30 (by omega), key 32 (by omega), key 34 (by omega)]

theorem pairVal_map (s : List Nat) (f : Nat → Nat) (k : Nat)
    (hk : k + 1 < s.length) (hf : ∀ c, hexVal (f c) = hexVal c) :
    pairVal (s.map f) k = pairVal s k := by
  unfold pairVal
  rw [getD_map s f k (by omega), getD_map s f (k + 1) hk, hf, hf]

theorem guidOf_map (s : List Nat) (f : Nat → Nat) (hlen : s.length = 36)
    (hf : ∀ c, hexVal (f c) = hexVal c) :
    guidOf (s.map f) = guidOf s := by
  unfold guidOf
  rw [pairVal_map s f 0 (by omega) hf, pairVal_map s f 2 (by omega) hf,
    pairVal_map s f 4 (by omega) hf, pairVal_map s f 6 (by omega) hf,
    pairVal_map s f 9 (by omega) hf, pairVal_map s f 11 (by omega) hf,
    pairVal_map s f 14 (by omega) hf, pairVal_map s f 16 (by omega) hf,
    pairVal_map s f 19 (by omega) hf, pairVal_map s f 21 (by omega) hf,
    pairVal_map s f 24 (by omega) hf, pairVal_map s f 26 (by omega) hf,
    pairVal_map s f 28 (by omega) hf, pairVal_map s f 30 (by omega) hf,
    pairVal_map s f 32 (by omega) hf, pairVal_map s f 34 (by omega) hf]

theorem try_parse_guid_map (s : List Nat) (f : Nat → Nat)
    (hsep : ∀ c, (f c = 0x2d) ↔ (c = 0x2d))
    (hhexd : ∀ c, isAsciiHexDigit (f c) = isAsciiHexDigit c)
    (hhexv : ∀ c, hexVal (f c) = hexVal c) :
    try_parse_guid (s.map f) = try_parse_guid s := by
  rw [try_parse_guid_eq, try_parse_guid_eq]
  by_cases hlen : s.length = 36
  case neg =>
    rw [if_pos (show (s.map f).length ≠ 36 by simpa using hlen),
      if_pos (show s.length ≠ 36 from hlen)]
  case pos =>
    rw [if_neg (show ¬(s.map f).length ≠ 36 by simp [hlen]),
      if_neg (show ¬s.length ≠ 36 by omega),
      sepOk_map s f hlen hsep, hexOk_map s f hlen hhexd,
      guidOf_map s f hlen hhexv]

/-! Lemmas for the canonical round-trip (C8) and position-wise hex facts. -/

theorem isAsciiHexDigit_false_big (c : Nat) (h : 0x67 ≤ c) :
    isAsciiHexDigit c = false := by
  simp only [isAsciiHexDigit, Bool.or_eq_false_iff, Bool.and_eq_false_iff,
    decide_eq_false_iff_not, not_le]
  omega

theorem hexDigitChar_lower (c : Nat) (h : isAsciiHexDigit c = true) :
    hexDigitChar (hexVal c) = asciiLower c := by
  by_cases hc : c < 0x67
  · have key : ∀ i : Fin 0x67, isAsciiHexDigit i.val = true →
        hexDigitChar (hexVal i.val) = asciiLower i.val := by decide
    exact key ⟨c, hc⟩ h
  · rw [isAsciiHexDigit_false_big c (by omega)] at h
    exact absurd h (by simp)

theorem byteHexPair_pairVal (s : List Nat) (k : Nat)
    (ha : isAsciiHexDigit (s.getD k 0) = true)
    (hb : isAsciiHexDigit (s.getD (k + 1) 0) = true) :
    byteHexPair (pairVal s k) =
      [asciiLower (s.getD k 0), asciiLower (s.getD (k + 1) 0)] := by
  unfold byteHexPair pairVal
  have hvb := hexVal_le (s.getD (k + 1) 0)
  have h1 : (16 * hexVal (s.getD k 0) + hexVal (s.getD (k + 1) 0)) / 16 =
      hexVal (s.getD k 0) := by omega
  have h2 : (16 * hexVal (s.getD k 0) + hexVal (s.getD (k + 1) 0)) % 16 =
      hexVal (s.getD (k + 1) 0) := by omega
  rw [h1, h2, hexDigitChar_lower _ ha, hexDigitChar_lower _ hb]

theorem map_eq_list36 (s : List Nat) (f : Nat → Nat) (h : s.length = 36) :
    s.map f =
      [f (s.getD 0 0), f (s.getD 1 0), f (s.getD 2 0), f (s.getD 3 0),
       f (s.getD 4 0), f (s.getD 5 0), f (s.getD 6 0), f (s.getD 7 0),
       f (s.getD 8 0), f (s.getD 9 0), f (s.getD 10 0), f (s.getD 11 0),
       f (s.getD 12 0), f (s.getD 13 0), f (s.getD 14 0), f (s.getD 15 0),
       f (s.getD 16 0), f (s.getD 17 0), f (s.getD 18 0), f (s.getD 19 0),
       f (s.getD 20 0), f (s.getD 21 0), f (s.getD 22 0), f (s.getD 23 0),
       f (s.getD 24 0), f (s.getD 25 0), f (s.getD 26 0), f (s.getD 27 0),
       f (s.getD 28 0), f (s.getD 29 0), f (s.getD 30 0), f (s.getD 31 0),
       f (s.getD 32 0), f (s.getD 33 0), f (s.getD 34 0), f (s.getD 35 0)] := by
  apply List.ext_getElem
  · simp [h]
  · intro i h1 h2
    have hi : i < 36 := by simpa [h] using h1
    interval_cases i <;> simp [List.getD_eq_getElem s 0, h]

theorem hexOk_getD (s : List Nat) (hx : hexOk s = true) (i : Nat)
    (hi : i < 36) (h8 : i ≠ 8) (h13 : i ≠ 13) (h18 : i ≠ 18) (h23 : i ≠ 23) :
    isAsciiHexDigit (s.getD i 0) = true := by
  rw [hexOk, List.all_eq_true] at hx
  have q0 := Bool.and_eq_true_iff.mp (hx 0 (by decide))
  have q2 := Bool.and_eq_true_iff.mp (hx 2 (by decide))
  have q4 := Bool.and_eq_true_iff.mp (hx 4 (by decide))
  have q6 := Bool.and_eq_true_iff.mp (hx 6 (by decide))
  have q9 := Bool.and_eq_true_iff.mp (hx 9 (by decide))
  have q11 := Bool.and_eq_true_iff.mp (hx 11 (by decide))
  have q14 := Bool.and_eq_true_iff.mp (hx 14 (by decide))
  have q16 := Bool.and_eq_true_iff.mp (hx 16 (by decide))
  have q19 := Bool.and_eq_true_iff.mp (hx 19 (by decide))
  have q21 := Bool.and_eq_true_iff.mp (hx 21 (by decide))
  have q24 := Bool.and_eq_true_iff.mp (hx 24 (by decide))
  have q26 := Bool.and_eq_true_iff.mp (hx 26 (by decide))
  have q28 := Bool.and_eq_true_iff.mp (hx 28 (by decide))
  have q30 := Bool.and_eq_true_iff.mp (hx 30 (by decide))
  have q32 := Bool.and_eq_true_iff.mp (hx 32 (by decide))
  have q34 := Bool.and_eq_true_iff.mp (hx 34 (by decide))
  interval_cases i
  exacts [q0.1, q0.2, q2.1, q2.2, q4.1, q4.2, q6.1, q6.2,
    absurd rfl h8, q9.1, q9.2, q11.1, q11.2, absurd rfl h13,
    q14.1, q14.2, q16.1, q16.2, absurd rfl h18, q19.1, q19.2,
    q21.1, q21.2, absurd rfl h23, q24.1, q24.2, q26.1, q26.2,
    q28.1, q28.2, q30.1, q30.2, q32.1, q32.2, q34.1, q34.2]

theorem parse_ok_inv (s : List Nat) (g : Guid)
    (h : try_parse_guid s = some (.ok g)) :
    s.length = 36 ∧ sepOk s = true ∧ hexOk s = true ∧ g = guidOf s := by
  rw [try_parse_guid_eq] at h
  split_ifs at h with h1 h2 h3
  · exact absurd h (by simp)
  · refine ⟨by omega, h2, h3, ?_⟩
    simpa using h.symm
  · exact absurd h (by simp)
  · exact absurd h (by simp)

theorem emit_roundtrip (s : List Nat) (g : Guid)
    (h : try_parse_guid s = some (.ok g)) :
    emit_guid g = s.map asciiLower := by
  obtain ⟨hlen, hsep, hhex, hg⟩ := parse_ok_inv s g h
  subst hg
  simp only [sepOk, Bool.and_eq_true, decide_eq_true_eq] at hsep
  obtain ⟨⟨⟨h8, h13⟩, h18⟩, h23⟩ := hsep
  rw [map_eq_list36 s asciiLower hlen]
  show byteHexPair (pairVal s 0) ++ byteHexPair (pairVal s 2) ++
    byteHexPair (pairVal s 4) ++ byteHexPair (pairVal s 6) ++ [0x2d] ++
    byteHexPair (pairVal s 9) ++ byteHexPair (pairVal s 11) ++ [0x2d] ++
    byteHexPair (pairVal s 14) ++ byteHexPair (pairVal s 16) ++ [0x2d] ++
    byteHexPair (pairVal s 19) ++ byteHexPair (pairVal s 21) ++ [0x2d] ++
    byteHexPair (pairVal s 24) ++ byteHexPair (pairVal s 26) ++
    byteHexPair (pairVal s 28) ++ byteHexPair (pairVal s 30) ++
    byteHexPair (pairVal s 32) ++ byteHexPair (pairVal s 34) = _
  rw [byteHexPair_pairVal s 0 (hexOk_getD s hhex 0 (by omega) (by omega)
      (by omega) (by omega) (by omega))
      (hexOk_getD s hhex 1 (by omega) (by omega) (by omega) (by omega)
      (by omega)),
    byteHexPair_pairVal s 2 (hexOk_getD s hhex 2 (by omega) (by omega)
      (by omega) (by omega) (by omega))
      (hexOk_getD s hhex 3 (by omega) (by omega) (by omega) (by omega)
      (by omega)),
    byteHexPair_pairVal s 4 (hexOk_getD s hhex 4 (by omega) (by omega)
      (by omega) (by omega) (by omega))
      (hexOk_getD s hhex 5 (by omega) (by omega) (by omega) (by omega)
      (by omega)),
    byteHexPair_pairVal s 6 (hexOk_getD s hhex 6 (by omega) (by omega)
      (by omega) (by omega) (by omega))
      (hexOk_getD s hhex 7 (by omega) (by omega) (by omega) (by omega)
      (by omega)),
    byteHexPair_pairVal s 9 (hexOk_getD s hhex 9 (by omega) (by omega)
      (by omega) (by omega) (by omega))
      (hexOk_getD s hhex 10 (by omega) (by omega) (by omega) (by omega)
      (by omega)),
    byteHexPair_pairVal s 11 (hexOk_getD s hhex 11 (by omega) (by omega)
      (by omega) (by omega) (by omega))
      (hexOk_getD s hhex 12 (by omega) (by omega) (by omega) (by omega)
      (by omega)),
    byteHexPair_pairVal s 14 (hexOk_getD s hhex 14 (by omega) (by omega)
      (by omega) (by omega) (by omega))
      (hexOk_getD s hhex 15 (by omega) (by omega) (by omega) (by omega)
      (by omega)),
    byteHexPair_pairVal s 16 (hexOk_getD s hhex 16 (by omega) (by omega)
      (by omega) (by omega) (by omega))
      (hexOk_getD s hhex 17 (by omega) (by omega) (by omega) (by omega)
      (by omega)),
    byteHexPair_pairVal s 19 (hexOk_getD s hhex 19 (by omega) (by omega)
      (by omega) (by omega) (by omega))
      (hexOk_getD s hhex 20 (by omega) (by omega) (by omega) (by omega)
      (by omega)),
    byteHexPair_pairVal s 21 (hexOk_getD s hhex 21 (by omega) (by omega)
      (by omega) (by omega) (by omega))
      (hexOk_getD s hhex 22 (by omega) (by omega) (by omega) (by omega)
      (by omega)),
    byteHexPair_pairVal s 24 (hexOk_getD s hhex 24 (by omega) (by omega)
      (by omega) (by omega) (by omega))
      (hexOk_getD s hhex 25 (by omega) (by omega) (by omega) (by omega)
      (by omega)),
    byteHexPair_pairVal s 26 (hexOk_getD s hhex 26 (by omega) (by omega)
      (by omega) (by omega) (by omega))
      (hexOk_getD s hhex 27 (by omega) (by omega) (by omega) (by omega)
      (by omega)),
    byteHexPair_pairVal s 28 (hexOk_getD s hhex 28 (by omega) (by omega)
      (by omega) (by omega) (by omega))
      (hexOk_getD s hhex 29 (by omega) (by omega) (by omega) (by omega)
      (by omega)),
    byteHexPair_pairVal s 30 (hexOk_getD s hhex 30 (by omega) (by omega)
      (by omega) (by omega) (by omega))
      (hexOk_getD s hhex 31 (by omega) (by omega) (by omega) (by omega)
      (by omega)),
    byteHexPair_pairVal s 32 (hexOk_getD s hhex 32 (by omega) (by omega)
      (by omega) (by omega) (by omega))
      (hexOk_getD s hhex 33 (by omega) (by omega) (by omega) (by omega)
      (by omega)),
    byteHexPair_pairVal s 34 (hexOk_getD s hhex 34 (by omega) (by omega)
      (by omega) (by omega) (by omega))
      (hexOk_getD s hhex 35 (by omega) (by omega) (by omega) (by omega)
      (by omega)),
    h8, h13, h18, h23]
  simp [asciiLower]

/-! Lemmas for surjectivity of the parser onto well-formed GUIDs (C2). -/

theorem exists_list4 (l : List Nat) (h : l.length = 4) :
    ∃ a b c d, l = [a, b, c, d] := by
  rcases l with _ | ⟨a, t⟩
  · simp at h
  · have ht : t.length = 3 := by simpa using h
    obtain ⟨b, c, d, rfl⟩ := List.length_eq_three.mp ht
    exact ⟨a, b, c, d, rfl⟩

theorem exists_list6 (l : List Nat) (h : l.length = 6) :
    ∃ a b c d e f, l = [a, b, c, d, e, f] := by
  rcases l with _ | ⟨a, t⟩
  · simp at h
  rcases t with _ | ⟨b, u⟩
  · simp at h
  rcases u with _ | ⟨c, v⟩
  · simp at h
  have hv : v.length = 3 := by simpa using h
  obtain ⟨d, e, f, rfl⟩ := List.length_eq_three.mp hv
  exact ⟨a, b, c, d, e, f, rfl⟩

theorem hexDigitChar_isHex (n : Nat) (h : n ≤ 15) :
    isAsciiHexDigit (hexDigitChar n) = true := by
  have key : ∀ i : Fin 16, isAsciiHexDigit (hexDigitChar i.val) = true := by
    decide
  exact key ⟨n, by omega⟩

theorem hexVal_hexDigitChar (n : Nat) (h : n ≤ 15) :
    hexVal (hexDigitChar n) = n := by
  have key : ∀ i : Fin 16, hexVal (hexDigitChar i.val) = i.val := by decide
  exact key ⟨n, by omega⟩

theorem hexPair_of_byte (b : Nat) (h : b < 256) :
    (isAsciiHexDigit (hexDigitChar (b / 16)) &&
      isAsciiHexDigit (hexDigitChar (b % 16))) = true := by
  rw [hexDigitChar_isHex _ (by omega), hexDigitChar_isHex _ (by omega)]
  rfl

theorem byte_of_hexPair (b : Nat) (h : b < 256) :
    16 * hexVal (hexDigitChar (b / 16)) + hexVal (hexDigitChar (b % 16)) =
      b := by
  rw [hexVal_hexDigitChar _ (by omega), hexVal_hexDigitChar _ (by omega)]
  omega

theorem parse_emit (g : Guid) (hwf : guidWF g = true) :
    try_parse_guid (emit_guid g) = some (.ok g) := by
  obtain ⟨tl, tm, th, csh, csl, nd⟩ := g
  simp only [guidWF, Bool.and_eq_true, decide_eq_true_eq] at hwf
  obtain ⟨⟨⟨⟨hl4, hl2⟩, hl2b⟩, hl6⟩, hlt⟩ := hwf
  obtain ⟨b0, b1, b2, b3, rfl⟩ := exists_list4 tl hl4
  obtain ⟨m0, m1, rfl⟩ := List.length_eq_two.mp hl2
  obtain ⟨t0, t1, rfl⟩ := List.length_eq_two.mp hl2b
  obtain ⟨n0, n1, n2, n3, n4, n5, rfl⟩ := exists_list6 nd hl6
  rw [List.all_eq_true] at hlt
  have B0 : b0 < 256 := by simpa using hlt b0 (by simp)
  have B1 : b1 < 256 := by simpa using hlt b1 (by simp)
  have B2 : b2 < 256 := by simpa using hlt b2 (by simp)
  have B3 : b3 < 256 := by simpa using hlt b3 (by simp)
  have Bm0 : m0 < 256 := by simpa using hlt m0 (by simp)
  have Bm1 : m1 < 256 := by simpa using hlt m1 (by simp)
  have Bt0 : t0 < 256 := by simpa using hlt t0 (by simp)
  have Bt1 : t1 < 256 := by simpa using hlt t1 (by simp)
  have Bc0 : csh < 256 := by simpa using hlt csh (by simp)
  have Bc1 : csl < 256 := by simpa using hlt csl (by simp)
  have Bn0 : n0 < 256 := by simpa using hlt n0 (by simp)
  have Bn1 : n1 < 256 := by simpa using hlt n1 (by simp)
  have Bn2 : n2 < 256 := by simpa using hlt n2 (by simp)
  have Bn3 : n3 < 256 := by simpa using hlt n3 (by simp)
  have Bn4 : n4 < 256 := by simpa using hlt n4 (by simp)
  have Bn5 : n5 < 256 := by simpa using hlt n5 (by simp)
  have hE : emit_guid
      ⟨[b0, b1, b2, b3], [m0, m1], [t0, t1], csh, csl,
        [n0, n1, n2, n3, n4, n5]⟩ =
      [hexDigitChar (b3 / 16), hexDigitChar (b3 % 16),
       hexDigitChar (b2 / 16), hexDigitChar (b2 % 16),
       hexDigitChar (b1 / 16), hexDigitChar (b1 % 16),
       hexDigitChar (b0 / 16), hexDigitChar (b0 % 16),
       0x2d,
       hexDigitChar (m1 / 16), hexDigitChar (m1 % 16),
       hexDigitChar (m0 / 16), hexDigitChar (m0 % 16),
       0x2d,
       hexDigitChar (t1 / 16), hexDigitChar (t1 % 16),
       hexDigitChar (t0 / 16), hexDigitChar (t0 % 16),
       0x2d,
       hexDigitChar (csh / 16), hexDigitChar (csh % 16),
       hexDigitChar (csl / 16), hexDigitChar (csl % 16),
       0x2d,
       hexDigitChar (n0 / 16), hexDigitChar (n0 % 16),
       hexDigitChar (n1 / 16), hexDigitChar (n1 % 16),
       hexDigitChar (n2 / 16), hexDigitChar (n2 % 16),
       hexDigitChar (n3 / 16), hexDigitChar (n3 % 16),
       hexDigitChar (n4 / 16), hexDigitChar (n4 % 16),
       hexDigitChar (n5 / 16), hexDigitChar (n5 % 16)] := by
    simp [emit_guid, byteHexPair]
  rw [try_parse_guid_eq, hE]
  split_ifs with h1 h2 h3
  · exact absurd rfl h1
  · refine congrArg some (congrArg Except.ok ?_)
    simp only [guidOf, pairVal]
    norm_num
    rw [byte_of_hexPair b0 B0, byte_of_hexPair b1 B1, byte_of_hexPair b2 B2,
      byte_of_hexPair b3 B3, byte_of_hexPair m0 Bm0, byte_of_hexPair m1 Bm1,
      byte_of_hexPair t0 Bt0, byte_of_hexPair t1 Bt1,
      byte_of_hexPair csh Bc0, byte_of_hexPair csl Bc1,
      byte_of_hexPair n0 Bn0, byte_of_hexPair n1 Bn1, byte_of_hexPair n2 Bn2,
      byte_of_hexPair n3 Bn3, byte_of_hexPair n4 Bn4, byte_of_hexPair n5 Bn5]
    simp
  · refine absurd ?_ h3
    rw [hexOk, List.all_eq_true]
    intro k hk
    fin_cases hk
    exacts [hexPair_of_byte b3 B3, hexPair_of_byte b2 B2,
      hexPair_of_byte b1 B1, hexPair_of_byte b0 B0,
      hexPair_of_byte m1 Bm1, hexPair_of_byte m0 Bm0,
      hexPair_of_byte t1 Bt1, hexPair_of_byte t0 Bt0,
      hexPair_of_byte csh Bc0, hexPair_of_byte csl Bc1,
      hexPair_of_byte n0 Bn0, hexPair_of_byte n1 Bn1,
      hexPair_of_byte n2 Bn2, hexPair_of_byte n3 Bn3,
      hexPair_of_byte n4 Bn4, hexPair_of_byte n5 Bn5]
  · exact absurd rfl h2

theorem nibble_facts (x y : Nat) (hx : x ≤ 15) (hy : y ≤ 15) :
    x <<< 4 &&& y = 0 ∧ (x <<< 4 ||| y) / 16 = x ∧ (x <<< 4 ||| y) % 16 = y := by
  have key : ∀ a b : Fin 16,
      a.val <<< 4 &&& b.val = 0 ∧ (a.val <<< 4 ||| b.val) / 16 = a.val ∧
        (a.val <<< 4 ||| b.val) % 16 = b.val := by decide
  exact key ⟨x, by omega⟩ ⟨y, by omega⟩

/-! The claims. -/

/-- Claim C1: on every input accepted by `try_parse_guid`, each destination
byte of the returned GUID is the decoded hex pair at the textual offset of
the spec's §4.2 table: `time_low` bytes 0..3 from offsets 6, 4, 2, 0;
`time_mid` from 11, 9; `time_high_and_version` from 16, 14;
`clock_seq_high_and_reserved` from 19; `clock_seq_low` from 21; `node`
bytes 0..5 from 24, 26, 28, 30, 32, 34, the pair at offset `k` consuming
the bytes at indices `k` and `k + 1`. -/
theorem claim_c1 (s : List Nat) (g : Guid)
    (h : try_parse_guid s = some (.ok g)) :
    g.time_low = [pairVal s 6, pairVal s 4, pairVal s 2, pairVal s 0] ∧
    g.time_mid = [pairVal s 11, pairVal s 9] ∧
    g.time_high_and_version = [pairVal s 16, pairVal s 14] ∧
    g.clock_seq_high_and_reserved = pairVal s 19 ∧
    g.clock_seq_low = pairVal s 21 ∧
    g.node = [pairVal s 24, pairVal s 26, pairVal s 28, pairVal s 30,
      pairVal s 32, pairVal s 34] := by
  obtain ⟨-, -, -, hg⟩ := parse_ok_inv s g h
  subst hg
  exact ⟨rfl, rfl, rfl, rfl, rfl, rfl⟩

theorem claim_c1_witness :
    (guidOf sampleInput).time_low =
      [pairVal sampleInput 6, pairVal sampleInput 4, pairVal sampleInput 2,
        pairVal sampleInput 0] ∧
    (guidOf sampleInput).time_mid =
      [pairVal sampleInput 11, pairVal sampleInput 9] ∧
    (guidOf sampleInput).time_high_and_version =
      [pairVal sampleInput 16, pairVal sampleInput 14] ∧
    (guidOf sampleInput).clock_seq_high_and_reserved = pairVal sampleInput 19 ∧
    (guidOf sampleInput).clock_seq_low = pairVal sampleInput 21 ∧
    (guidOf sampleInput).node =
      [pairVal sampleInput 24, pairVal sampleInput 26, pairVal sampleInput 28,
        pairVal sampleInput 30, pairVal sampleInput 32,
        pairVal sampleInput 34] :=
  claim_c1 sampleInput (guidOf sampleInput) (by decide)

/-- Claim C2: every byte string of length 36 with `-` at indices 8, 13, 18,
23 and ASCII hex digits everywhere else parses to `Ok` with some GUID; and
no semantic validation is performed, so every well-formed bit pattern in
every field is produced by some input. -/
theorem claim_c2 :
    (∀ s : List Nat, s.length = 36 →
      s.getD 8 0 = 0x2d → s.getD 13 0 = 0x2d → s.getD 18 0 = 0x2d →
      s.getD 23 0 = 0x2d →
      (∀ i, i < 36 → i ≠ 8 → i ≠ 13 → i ≠ 18 → i ≠ 23 →
        isAsciiHexDigit (s.getD i 0) = true) →
      try_parse_guid s = some (.ok (guidOf s))) ∧
    (∀ g : Guid, guidWF g = true →
      ∃ s, try_parse_guid s = some (.ok g)) := by
  constructor
  · intro s hlen h8 h13 h18 h23 hhex
    rw [try_parse_guid_eq, if_neg (by omega),
      if_pos (show sepOk s = true by
        simp only [sepOk, h8, h13, h18, h23]
        rfl),
      if_pos (show hexOk s = true by
        rw [hexOk, List.all_eq_true]
        intro k hk
        fin_cases hk <;> rw [Bool.and_eq_true]
        exacts [
          ⟨hhex 0 (by omega) (by omega) (by omega) (by omega) (by omega),
           hhex 1 (by omega) (by omega) (by omega) (by omega) (by omega)⟩,
          ⟨hhex 2 (by omega) (by omega) (by omega) (by omega) (by omega),
           hhex 3 (by omega) (by omega) (by omega) (by omega) (by omega)⟩,
          ⟨hhex 4 (by omega) (by omega) (by omega) (by omega) (by omega),
           hhex 5 (by omega) (by omega) (by omega) (by omega) (by omega)⟩,
          ⟨hhex 6 (by omega) (by omega) (by omega) (by omega) (by omega),
           hhex 7 (by omega) (by omega) (by omega) (by omega) (by omega)⟩,
          ⟨hhex 9 (by omega) (by omega) (by omega) (by omega) (by omega),
           hhex 10 (by omega) (by omega) (by omega) (by omega) (by omega)⟩,
          ⟨hhex 11 (by omega) (by omega) (by omega) (by omega) (by omega),
           hhex 12 (by omega) (by omega) (by omega) (by omega) (by omega)⟩,
          ⟨hhex 14 (by omega) (by omega) (by omega) (by omega) (by omega),
           hhex 15 (by omega) (by omega) (by omega) (by omega) (by omega)⟩,
          ⟨hhex 16 (by omega) (by omega) (by omega) (by omega) (by omega),
           hhex 17 (by omega) (by omega) (by omega) (by omega) (by omega)⟩,
          ⟨hhex 19 (by omega) (by omega) (by omega) (by omega) (by omega),
           hhex 20 (by omega) (by omega) (by omega) (by omega) (by omega)⟩,
          ⟨hhex 21 (by omega) (by omega) (by omega) (by omega) (by omega),
           hhex 22 (by omega) (by omega) (by omega) (by omega) (by omega)⟩,
          ⟨hhex 24 (by omega) (by omega) (by omega) (by omega) (by omega),
           hhex 25 (by omega) (by omega) (by omega) (by omega) (by omega)⟩,
          ⟨hhex 26 (by omega) (by omega) (by omega) (by omega) (by omega),
           hhex 27 (by omega) (by omega) (by omega) (by omega) (by omega)⟩,
          ⟨hhex 28 (by omega) (by omega) (by omega) (by omega) (by omega),
           hhex 29 (by omega) (by omega) (by omega) (by omega) (by omega)⟩,
          ⟨hhex 30 (by omega) (by omega) (by omega) (by omega) (by omega),
           hhex 31 (by omega) (by omega) (by omega) (by omega) (by omega)⟩,
          ⟨hhex 32 (by omega) (by omega) (by omega) (by omega) (by omega),
           hhex 33 (by omega) (by omega) (by omega) (by omega) (by omega)⟩,
          ⟨hhex 34 (by omega) (by omega) (by omega) (by omega) (by omega),
           hhex 35 (by omega) (by omega) (by omega) (by omega) (by omega)⟩])]
  · intro g hg
    exact ⟨emit_guid g, parse_emit g hg⟩

theorem claim_c2_witness :
    try_parse_guid sampleInput = some (.ok (guidOf sampleInput)) ∧
    ∃ s, try_parse_guid s = some (.ok (guidOf sampleInput)) :=
  ⟨claim_c2.1 sampleInput (by decide) (by decide) (by decide) (by decide)
      (by decide) (by decide),
    claim_c2.2 (guidOf sampleInput) (by decide)⟩

/-- Claim C3: every input whose byte length is not 36 (including the empty
string and well-formed 35- or 37-byte strings) is rejected with the single
parse error. -/
theorem claim_c3 (s : List Nat) (h : s.length ≠ 36) :
    try_parse_guid s = some (.error ⟨⟩) := by
  rw [try_parse_guid_eq, if_pos h]

theorem claim_c3_witness : try_parse_guid [] = some (.error ⟨⟩) :=
  claim_c3 [] (by decide)

/-- Claim C4: every input of byte length 36 whose byte at any of indices
8, 13, 18, 23 is not `-` (0x2d) is rejected with the single parse error. -/
theorem claim_c4 (s : List Nat) (hlen : s.length = 36)
    (h : s.getD 8 0 ≠ 0x2d ∨ s.getD 13 0 ≠ 0x2d ∨ s.getD 18 0 ≠ 0x2d ∨
      s.getD 23 0 ≠ 0x2d) :
    try_parse_guid s = some (.error ⟨⟩) := by
  rw [try_parse_guid_eq, if_neg (by omega),
    if_neg (show ¬sepOk s = true by
      simp only [sepOk, Bool.and_eq_true, decide_eq_true_eq]
      tauto)]

theorem claim_c4_witness : try_parse_guid sampleNoSep = some (.error ⟨⟩) :=
  claim_c4 sampleNoSep (by decide) (Or.inl (by decide))

/-- Claim C5: every input of byte length 36 with correct separators but a
non-hex byte (including any byte above 0x7f) at some non-separator index
is rejected with the single parse error. -/
theorem claim_c5 (s : List Nat) (hlen : s.length = 36)
    (hsep : sepOk s = true)
    (h : ∃ i, i < 36 ∧ i ≠ 8 ∧ i ≠ 13 ∧ i ≠ 18 ∧ i ≠ 23 ∧
      isAsciiHexDigit (s.getD i 0) = false) :
    try_parse_guid s = some (.error ⟨⟩) := by
  rw [try_parse_guid_eq, if_neg (by omega), if_pos hsep,
    if_neg (show ¬hexOk s = true by
      obtain ⟨i, hi, n8, n13, n18, n23, hbad⟩ := h
      intro hhex
      have hx := hexOk_getD s hhex i hi n8 n13 n18 n23
      rw [hx] at hbad
      exact absurd hbad (by simp))]

theorem claim_c5_witness : try_parse_guid sampleNonHex = some (.error ⟨⟩) :=
  claim_c5 sampleNonHex (by decide) (by decide) ⟨0, by decide⟩

/-- Claim C6: for two bytes that are both ASCII hex digits,
`parse_byte_from_ascii_char_pair` returns `Ok` of the byte whose upper
nibble is the value of the first and lower nibble the value of the second,
combined as a shift and bitwise or; if either byte is not a hex digit it
returns the parse error. -/
theorem claim_c6 (a b : Nat) :
    (isAsciiHexDigit a = true → isAsciiHexDigit b = true →
      parse_byte_from_ascii_char_pair a b =
        .ok (hexVal a <<< 4 ||| hexVal b)) ∧
    (isAsciiHexDigit a = false ∨ isAsciiHexDigit b = false →
      parse_byte_from_ascii_char_pair a b = .error ⟨⟩) := by
  constructor
  · intro ha hb
    rw [pair_eq, if_pos (by rw [ha, hb]; rfl),
      nibble_combine _ _ (hexVal_le a) (hexVal_le b)]
  · intro h
    rw [pair_eq, if_neg (by rcases h with h | h <;> simp [h])]

theorem claim_c6_witness :
    parse_byte_from_ascii_char_pair 0x31 0x61 =
      .ok (hexVal 0x31 <<< 4 ||| hexVal 0x61) ∧
    parse_byte_from_ascii_char_pair 0x67 0x61 = .error ⟨⟩ :=
  ⟨(claim_c6 0x31 0x61).1 (by decide) (by decide),
    (claim_c6 0x67 0x61).2 (Or.inl (by decide))⟩

/-- Claim C7: parsing is case-insensitive: mapping the ASCII uppercase or
lowercase transformation over any input byte string leaves the result of
`try_parse_guid` unchanged. -/
theorem claim_c7 (s : List Nat) :
    try_parse_guid (s.map asciiUpper) = try_parse_guid s ∧
    try_parse_guid (s.map asciiLower) = try_parse_guid s :=
  ⟨try_parse_guid_map s asciiUpper asciiUpper_sep isAsciiHexDigit_asciiUpper
      hexVal_asciiUpper,
    try_parse_guid_map s asciiLower asciiLower_sep isAsciiHexDigit_asciiLower
      hexVal_asciiLower⟩

/-- Claim C8: round-trip: whenever `try_parse_guid` accepts an input `s`
with GUID `g`, re-emitting `g` in canonical form (lowercase, hyphenated,
inverse of the field/offset mapping) yields exactly the ASCII-lowercase
of `s`. -/
theorem claim_c8 (s : List Nat) (g : Guid)
    (h : try_parse_guid s = some (.ok g)) :
    emit_guid g = s.map asciiLower :=
  emit_roundtrip s g h

theorem claim_c8_witness :
    emit_guid (guidOf sampleUpper) = sampleUpper.map asciiLower :=
  claim_c8 sampleUpper (guidOf sampleUpper) (by decide)

/-- Claim C9: `try_parse_guid` is total: on every input it returns a value
(never the panic marker `none`, every byte access being in bounds once the
length-36 check has passed), and on inputs of any other length the error
is the only outcome. -/
theorem claim_c9 (s : List Nat) :
    (∃ r, try_parse_guid s = some r) ∧
    (s.length ≠ 36 → try_parse_guid s = some (.error ⟨⟩)) := by
  constructor
  · rw [try_parse_guid_eq]
    split_ifs <;> exact ⟨_, rfl⟩
  · intro h
    rw [try_parse_guid_eq, if_pos h]

theorem claim_c9_witness :
    (∃ r, try_parse_guid [0x30] = some r) ∧
    try_parse_guid [0x30] = some (.error ⟨⟩) :=
  ⟨(claim_c9 [0x30]).1, (claim_c9 [0x30]).2 (by decide)⟩

/-- Claim C10: nibble-range invariant: a successful
`parse_byte_from_ascii_char` always returns a value of at most 0xf; in
`parse_byte_from_ascii_char_pair` the combination has no overlapping bits,
its upper nibble is the first value and its lower nibble the second, and
the pair decoder is injective up to ASCII case. -/
theorem claim_c10 :
    (∀ c v, parse_byte_from_ascii_char c = .ok v → v ≤ 0xf) ∧
    (∀ a b va vb, parse_byte_from_ascii_char a = .ok va →
      parse_byte_from_ascii_char b = .ok vb →
      parse_byte_from_ascii_char_pair a b = .ok (va <<< 4 ||| vb) ∧
      va <<< 4 &&& vb = 0 ∧ (va <<< 4 ||| vb) / 16 = va ∧
      (va <<< 4 ||| vb) % 16 = vb) ∧
    (∀ a b a2 b2 v, parse_byte_from_ascii_char_pair a b = .ok v →
      parse_byte_from_ascii_char_pair a2 b2 = .ok v →
      asciiLower a = asciiLower a2 ∧ asciiLower b = asciiLower b2) := by
  refine ⟨?_, ?_, ?_⟩
  · intro c v h
    rw [parse_char_eq] at h
    split_ifs at h with hx
    simp only [Except.ok.injEq] at h
    subst h
    exact hexVal_le c
  · intro a b va vb ha hb
    have hva : va ≤ 15 := by
      rw [parse_char_eq] at ha
      split_ifs at ha with hx
      simp only [Except.ok.injEq] at ha
      subst ha
      exact hexVal_le a
    have hvb : vb ≤ 15 := by
      rw [parse_char_eq] at hb
      split_ifs at hb with hx
      simp only [Except.ok.injEq] at hb
      subst hb
      exact hexVal_le b
    refine ⟨?_, nibble_facts va vb hva hvb⟩
    simp only [parse_byte_from_ascii_char_pair, ha, hb]
  · intro a b a2 b2 v h1 h2
    rw [pair_eq] at h1 h2
    split_ifs at h1 with q1
    split_ifs at h2 with q2
    rw [Bool.and_eq_true] at q1 q2
    simp only [Except.ok.injEq] at h1 h2
    have hb1 := hexVal_le b
    have hb2 := hexVal_le b2
    have hda : hexVal a = hexVal a2 := by omega
    have hdb : hexVal b = hexVal b2 := by omega
    constructor
    · rw [← hexDigitChar_lower a q1.1, ← hexDigitChar_lower a2 q2.1, hda]
    · rw [← hexDigitChar_lower b q1.2, ← hexDigitChar_lower b2 q2.2, hdb]

theorem claim_c10_witness :
    (0xa : Nat) ≤ 0xf ∧
    (parse_byte_from_ascii_char_pair 0x33 0x61 =
        .ok ((0x3 : Nat) <<< 4 ||| 0xa) ∧
      (0x3 : Nat) <<< 4 &&& 0xa = 0 ∧
      ((0x3 : Nat) <<< 4 ||| 0xa) / 16 = 0x3 ∧
      ((0x3 : Nat) <<< 4 ||| 0xa) % 16 = 0xa) ∧
    (asciiLower 0x41 = asciiLower 0x61 ∧ asciiLower 0x42 = asciiLower 0x62) :=
  ⟨claim_c10.1 0x61 0xa (by decide),
    claim_c10.2.1 0x33 0x61 0x3 0xa (by decide) (by decide),
    claim_c10.2.2 0x41 0x42 0x61 0x62 0xab (by decide) (by decide)⟩
